import Mathlib

/-!
Verification of the ticker-resolution and data-acquisition retry logic of the
StockML application (src/main.py).

The development shallowly embeds the two core functions of the script:

* `getTicker` (main.py lines 25-63): queries the Yahoo Finance search endpoint
  and extracts the best-matching symbol, converting every expected failure
  (timeout, network error, HTTP error status, undecodable body, missing
  fields, empty match list) into the structured value `none` via its
  `try`/`except` wrapper.  The external HTTP response is modelled by
  `SearchResponse`, the decoded JSON body by `JVal`, and the Python
  exceptions that the subscript/attribute operations can raise by `PyExc`.

* `load_data` (main.py lines 65-121): the bounded retry state machine.  The
  external collaborators are passed as functions: `fetch` stands for
  `yf.download` (returning the ordered price series as a list, empty meaning
  "no data") and `resolve` stands for `getTicker` (returning `none` for "no
  symbol found").  Besides the outcome the embedding records the observable
  trace of a load cycle: the symbols fetched (in order), the queries passed
  to the resolver, and the attempt numbers of the loop iterations entered.

* the module-level main block (main.py lines 124-182), modelled by
  `main_app`, which upper-cases the raw user input (line 19) and reports
  which display stages run for the loaded series.

Python's `str.upper` is modelled by `pyUpper` (ASCII case mapping,
character-wise `Char.toUpper`).
-/

namespace StockML

/-- Model of Python's `str.upper()` (main.py lines 19, 44, 96, 100):
character-wise upper-casing of the string. -/
def pyUpper (s : String) : String := ⟨s.data.map Char.toUpper⟩

/-- A decoded JSON value, the possible result of `res.json()` in `getTicker`
(main.py line 38). -/
inductive JVal where
  | null
  | bool (b : Bool)
  | num (n : Int)
  | str (s : String)
  | arr (xs : List JVal)
  | obj (kvs : List (String × JVal))

/-- The Python exceptions that the body of `getTicker` can raise: the
`requests` exceptions (lines 52-57), the subscript/lookup errors caught at
line 58, the JSON decoding error and the attribute error reached only through
the generic handler at line 61. -/
inductive PyExc where
  | keyError
  | indexError
  | typeError
  | attributeError
  | timeout
  | requestException
  | httpError
  | jsonDecodeError
  deriving DecidableEq

/-- Python truthiness of a decoded JSON value, used by the condition at
main.py line 40 (`data['quotes']` and `data['quotes'][0]['symbol']` are used
as booleans). -/
def jTruthy : JVal → Bool
  | .null => false
  | .bool b => b
  | .num n => n != 0
  | .str s => s != ""
  | .arr xs => !xs.isEmpty
  | .obj kvs => !kvs.isEmpty

/-- Python's `in` operator, `'quotes' in data` (main.py line 40): key lookup
for a dict, element membership for a list, substring test for a string, and a
`TypeError` for the remaining JSON values. -/
def jContains (v : JVal) (k : String) : Except PyExc Bool :=
  match v with
  | .obj kvs => .ok (kvs.lookup k).isSome
  | .arr xs => .ok (xs.any fun e => match e with | .str s => s == k | _ => false)
  | .str s => .ok (decide (k.data <:+: s.data))
  | _ => .error .typeError

/-- Python subscript with a string key, `data['quotes']` / `...['symbol']`
(main.py lines 40-41): dict lookup raising `KeyError` when the key is absent,
`TypeError` on any non-dict value. -/
def jGetStr (v : JVal) (k : String) : Except PyExc JVal :=
  match v with
  | .obj kvs =>
    match kvs.lookup k with
    | some x => .ok x
    | none => .error .keyError
  | _ => .error .typeError

/-- Python subscript with an integer index, `data['quotes'][0]` (main.py
lines 40-41): list indexing raising `IndexError` out of range, character
extraction for strings, `KeyError` for a (string-keyed) dict, `TypeError`
otherwise. -/
def jGetIdx (v : JVal) (i : Nat) : Except PyExc JVal :=
  match v with
  | .arr xs =>
    match xs[i]? with
    | some x => .ok x
    | none => .error .indexError
  | .str s =>
    match s.data[i]? with
    | some c => .ok (.str ⟨[c]⟩)
    | none => .error .indexError
  | .obj _ => .error .keyError
  | _ => .error .typeError

/-- The outcome of the HTTP request performed by `getTicker` (main.py line
36): a timeout, another network/request error, or a response with a status
code and a body that may or may not decode as JSON. -/
inductive SearchResponse where
  | timeout
  | connectionError
  | ok (status : Nat) (body : Option JVal)

/-- The body of the `try` block of `getTicker` (main.py lines 35-51):
`res.raise_for_status()` raises exactly for a 4xx/5xx status
(`400 <= status_code < 600`; other codes pass through), `res.json()` raises
on an undecodable body, then the guard
`'quotes' in data and data['quotes'] and data['quotes'][0]['symbol']`
is evaluated left to right; on success `data['quotes'][0]['symbol']` is
returned (its `.upper()` at line 44 raises `AttributeError` when the value is
not a string).  A `False` guard takes the `else` branch at lines 49-51 and
returns `None`. -/
def getTickerTry (response : SearchResponse) : Except PyExc (Option String) :=
  match response with
  | .timeout => .error .timeout
  | .connectionError => .error .requestException
  | .ok status body =>
    if 400 ≤ status ∧ status < 600 then .error .httpError
    else
      match body with
      | none => .error .jsonDecodeError
      | some data =>
        match jContains data "quotes" with
        | .error e => .error e
        | .ok false => .ok none
        | .ok true =>
          match jGetStr data "quotes" with
          | .error e => .error e
          | .ok quotes =>
            if jTruthy quotes then
              match jGetIdx quotes 0 with
              | .error e => .error e
              | .ok first =>
                match jGetStr first "symbol" with
                | .error e => .error e
                | .ok sym =>
                  if jTruthy sym then
                    match sym with
                    | .str s => .ok (some s)
                    | _ => .error .attributeError
                  else .ok none
            else .ok none

/-- `getTicker` (main.py lines 25-63): the `try` body wrapped in the
`except` clauses of lines 52-63, every one of which returns `None`. -/
def getTicker (response : SearchResponse) : Option String :=
  match getTickerTry response with
  | .ok v => v
  | .error _ => none

/-- The terminal outcomes of `load_data` (main.py lines 65-121), one per
`return` statement.  In Python every failure case returns an empty
`pd.DataFrame()`; the constructors distinguish the `st.error` paths. -/
inductive LoadOutcome (α : Type) where
  | emptyInput
  | attemptsExhausted
  | success (data : List α)
  | resolvedAlreadyTried (sym : String)
  | notResolved
  | resolvedSymbolFailed
  | maxAttemptsReached
  deriving DecidableEq

/-- The observable trace of one `load_data` call tree: the symbols passed to
`yf.download` in order (main.py line 85), the queries passed to `getTicker`
in order (line 98), the attempt numbers of the loop iterations entered (the
`st.info` at line 82), and the terminal outcome. -/
structure Trace (α : Type) where
  fetched : List String
  resolverQueries : List String
  attempts : List Nat
  outcome : LoadOutcome α
  deriving DecidableEq

/-- `load_data` (main.py lines 65-121), instrumented with the trace of its
observable calls.  `fetch` stands for `yf.download(·, start=START, end=TODAY)`
(line 85, an empty list modelling an empty DataFrame) and `resolve` for
`getTicker` (line 98).  Guards, comparisons and the recursive call at line
102 mirror the source: the empty-input check (line 71), the defaulting of
`initial_input` (lines 75-76, inlined as `Option.getD`), the attempt ceiling
(line 78), the retry window (line 92), the original-vs-current comparison
(line 96), the resolver truthiness and novelty tests (line 100), and the
upper-cased comparisons throughout. -/
def load_data {α : Type} (fetch : String → List α) (resolve : String → Option String)
    (ticker_or_name : String) (attempt : Nat) (max_attempts : Nat)
    (initial_input : Option String) : Trace α :=
  if ticker_or_name = "" then ⟨[], [], [], .emptyInput⟩
  else if _h : max_attempts ≤ attempt then ⟨[], [], [], .attemptsExhausted⟩
  else if (fetch ticker_or_name).isEmpty then
    if attempt < max_attempts - 1 then
      if pyUpper ticker_or_name = pyUpper (initial_input.getD ticker_or_name)
          ∨ attempt = 0 then
        match resolve (initial_input.getD ticker_or_name) with
        | some resolved_symbol =>
          if resolved_symbol ≠ "" then
            if pyUpper resolved_symbol ≠ pyUpper ticker_or_name then
              let rest := load_data fetch resolve resolved_symbol (attempt + 1)
                max_attempts (some (initial_input.getD ticker_or_name))
              ⟨ticker_or_name :: rest.fetched,
                initial_input.getD ticker_or_name :: rest.resolverQueries,
                attempt :: rest.attempts, rest.outcome⟩
            else
              ⟨[ticker_or_name], [initial_input.getD ticker_or_name], [attempt],
                .resolvedAlreadyTried resolved_symbol⟩
          else
            ⟨[ticker_or_name], [initial_input.getD ticker_or_name], [attempt],
              .notResolved⟩
        | none =>
          ⟨[ticker_or_name], [initial_input.getD ticker_or_name], [attempt],
            .notResolved⟩
      else ⟨[ticker_or_name], [], [attempt], .resolvedSymbolFailed⟩
    else ⟨[ticker_or_name], [], [attempt], .maxAttemptsReached⟩
  else ⟨[ticker_or_name], [], [attempt], .success (fetch ticker_or_name)⟩
termination_by max_attempts - attempt
decreasing_by omega

/-- One full load cycle as started by the main block (main.py line 127):
`load_data(user_input, initial_input=user_input)`, with the default
`attempt=0` and `max_attempts=3`. -/
def load {α : Type} (fetch : String → List α) (resolve : String → Option String)
    (user_input : String) : Trace α :=
  load_data fetch resolve user_input 0 3 (some user_input)

/-- The DataFrame actually returned by `load_data`: the series on success,
the empty `pd.DataFrame()` on every failure path. -/
def returnedValue {α : Type} : LoadOutcome α → List α
  | .success d => d
  | _ => []

/-- What the main block displays, as far as the claims are concerned. -/
inductive MainView where
  | promptForInput
  | loadFailed
  | shown (rawDataShown : Bool) (fewDataWarning : Bool) (forecastRun : Bool)
      (insufficientDataError : Bool)
  deriving DecidableEq

/-- The module-level main block (main.py lines 19 and 124-182): the raw text
input is upper-cased (line 19); an empty input shows the prompt (line 182);
otherwise `load_data` runs (line 127) and, if the returned DataFrame is
empty, the fallback load error shows (line 173); otherwise the raw data is
displayed (lines 130-138), the `len(df_train) < 10` warning may show (lines
145-146), Prophet runs only when `len(df_train) >= 2` (line 148), and the
insufficient-data error shows otherwise (line 168).  `df_train` selects two
columns of `stock_data` (line 142), so it has the same number of rows. -/
def main_app {α : Type} (fetch : String → List α) (resolve : String → Option String)
    (raw_input : String) : MainView :=
  let user_input := pyUpper raw_input
  if user_input = "" then .promptForInput
  else
    let stock_data := returnedValue (load fetch resolve user_input).outcome
    if stock_data.isEmpty then .loadFailed
    else
      let df_train := stock_data
      .shown true (decide (df_train.length < 10)) (decide (2 ≤ df_train.length))
        (decide (df_train.length < 2))

/-! ### Helper lemmas -/

theorem char_toUpper_idem (c : Char) : c.toUpper.toUpper = c.toUpper := by
  have hdef : ∀ d : Char,
      d.toUpper = if d.toNat ≥ 97 ∧ d.toNat ≤ 122 then Char.ofNat (d.toNat - 32) else d := by
    intro d; rfl
  by_cases h : c.toNat ≥ 97 ∧ c.toNat ≤ 122
  · rw [hdef c, if_pos h]
    obtain ⟨h1, h2⟩ := h
    set n := c.toNat with hn
    interval_cases n <;> decide
  · rw [hdef c, if_neg h, hdef c, if_neg h]

theorem pyUpper_idem (s : String) : pyUpper (pyUpper s) = pyUpper s := by
  unfold pyUpper
  simp only [List.map_map]
  congr 1
  exact List.map_congr_left fun a _ => char_toUpper_idem a

theorem take_sublist_succ {β : Type} (l : List β) (i : Nat) :
    List.Sublist (l.take i) (l.take (i + 1)) := by
  have h := List.take_sublist i (l.take (i + 1))
  rwa [List.take_take, min_eq_left (Nat.le_succ i)] at h

/-- Structural shape of a `load_data` trace: the attempt numbers of the
iterations entered are consecutive starting from the initial `attempt`, there
are at most `max_attempts - attempt` of them, and each iteration performs
exactly one fetch. -/
theorem load_data_trace_shape {α : Type} (fetch : String → List α)
    (resolve : String → Option String) (t : String) (a m : Nat) (i : Option String) :
    ∃ k, (load_data fetch resolve t a m i).attempts = List.range' a k
      ∧ k ≤ m - a
      ∧ (load_data fetch resolve t a m i).fetched.length = k := by
  induction t, a, m, i using load_data.induct fetch resolve with
  | case1 a m i =>
    refine ⟨0, ?_, Nat.zero_le _, ?_⟩ <;> rw [load_data] <;> simp
  | case2 t a m i h1 h2 =>
    refine ⟨0, ?_, Nat.zero_le _, ?_⟩ <;> rw [load_data] <;> simp [h1, h2]
  | case3 t a m i h1 h2 h3 h4 h5 r hr h6 h7 ih =>
    obtain ⟨k, hk1, hk2, hk3⟩ := ih
    refine ⟨k + 1, ?_, by omega, ?_⟩ <;> rw [load_data] <;>
      simp [h1, h2, h3, h4, h5, hr, h6, h7, hk1, hk3, List.range'_succ]
  | case4 t a m i h1 h2 h3 h4 h5 r hr h6 h7 =>
    refine ⟨1, ?_, by omega, ?_⟩ <;> rw [load_data] <;>
      simp [h1, h2, h3, h4, h5, hr, h6, h7]
  | case5 t a m i h1 h2 h3 h4 h5 r hr h6 =>
    refine ⟨1, ?_, by omega, ?_⟩ <;> rw [load_data] <;>
      simp [h1, h2, h3, h4, h5, hr, h6]
  | case6 t a m i h1 h2 h3 h4 h5 hr =>
    refine ⟨1, ?_, by omega, ?_⟩ <;> rw [load_data] <;>
      simp [h1, h2, h3, h4, h5, hr]
  | case7 t a m i h1 h2 h3 h4 h5 =>
    refine ⟨1, ?_, by omega, ?_⟩ <;> rw [load_data] <;>
      simp [h1, h2, h3, h4, h5]
  | case8 t a m i h1 h2 h3 h4 =>
    refine ⟨1, ?_, by omega, ?_⟩ <;> rw [load_data] <;>
      simp [h1, h2, h3, h4]
  | case9 t a m i h1 h2 h3 =>
    refine ⟨1, ?_, by omega, ?_⟩ <;> rw [load_data] <;>
      simp [h1, h2, h3]

/-- Every query handed to the resolver during a `load_data` call tree is the
(defaulted) initial input, never the currently failing symbol. -/
theorem load_data_resolver_arg {α : Type} (fetch : String → List α)
    (resolve : String → Option String) (t : String) (a m : Nat) (i : Option String) :
    ∀ s ∈ (load_data fetch resolve t a m i).resolverQueries, s = i.getD t := by
  induction t, a, m, i using load_data.induct fetch resolve with
  | case1 a m i => rw [load_data]; simp
  | case2 t a m i h1 h2 => rw [load_data]; simp [h1, h2]
  | case3 t a m i h1 h2 h3 h4 h5 r hr h6 h7 ih =>
    intro s hs
    rw [load_data] at hs
    simp [h1, h2, h3, h4, h5, hr, h6, h7] at hs
    rcases hs with hs | hs
    · exact hs
    · simpa using ih s hs
  | case4 t a m i h1 h2 h3 h4 h5 r hr h6 h7 =>
    rw [load_data]; simp [h1, h2, h3, h4, h5, hr, h6, h7]
  | case5 t a m i h1 h2 h3 h4 h5 r hr h6 =>
    rw [load_data]; simp [h1, h2, h3, h4, h5, hr, h6]
  | case6 t a m i h1 h2 h3 h4 h5 hr =>
    rw [load_data]; simp [h1, h2, h3, h4, h5, hr]
  | case7 t a m i h1 h2 h3 h4 h5 =>
    rw [load_data]; simp [h1, h2, h3, h4, h5]
  | case8 t a m i h1 h2 h3 h4 =>
    rw [load_data]; simp [h1, h2, h3, h4]
  | case9 t a m i h1 h2 h3 =>
    rw [load_data]; simp [h1, h2, h3]

/-! ### Claims -/

/-- C9: if `load_data` is called with an empty (falsy) query string, it
immediately returns the empty result (`emptyInput` terminal failure) without
performing any price fetch and without invoking the resolver (main.py lines
71-73). -/
theorem load_empty_query_immediate_failure {α : Type} (fetch : String → List α)
    (resolve : String → Option String) (a m : Nat) (i : Option String) :
    load_data fetch resolve "" a m i = ⟨[], [], [], .emptyInput⟩ := by
  rw [load_data]
  simp

/-- C2: for a query that is already a valid symbol whose direct fetch returns
a non-empty series, `load` terminates successfully on the first attempt
(attempt number 0) with that series, and the resolver is never invoked
(empty `resolverQueries`). -/
theorem load_direct_success_first_attempt {α : Type} (fetch : String → List α)
    (resolve : String → Option String) (q : String)
    (hq : q ≠ "") (hne : fetch q ≠ []) :
    load fetch resolve q = ⟨[q], [], [0], .success (fetch q)⟩ := by
  rw [load, load_data]
  simp [hq, hne]

/-- C2 witness: the query "AAPL" with data available directly. -/
theorem load_direct_success_first_attempt_witness :
    load (fun _ => ([1] : List Nat)) (fun _ => none) "AAPL" =
      ⟨["AAPL"], [], [0], .success [1]⟩ :=
  load_direct_success_first_attempt (fun _ => ([1] : List Nat)) (fun _ => none) "AAPL"
    (by decide) (by decide)

/-- C3: when the direct fetch is empty and the resolver returns a symbol
already present among the symbols tried in this cycle (at the only resolution
point the tried symbols are exactly `[q]`), `load` returns the cycle-detected
terminal failure without performing any further fetch: the fetched list stays
`[q]` (main.py lines 100-106). -/
theorem load_cycle_detected_no_further_fetch {α : Type} (fetch : String → List α)
    (resolve : String → Option String) (q r : String)
    (hq : q ≠ "") (hfq : fetch q = []) (hr : resolve q = some r) (hrne : r ≠ "")
    (htried : r = q) :
    load fetch resolve q = ⟨[q], [q], [0], .resolvedAlreadyTried r⟩ := by
  subst htried
  rw [load, load_data]
  simp [hq, hfq, hr, hrne]

/-- C3 witness: the resolver echoes back the just-tried symbol. -/
theorem load_cycle_detected_no_further_fetch_witness :
    load (fun _ => ([] : List Nat)) (fun _ => some "A") "A" =
      ⟨["A"], ["A"], [0], .resolvedAlreadyTried "A"⟩ :=
  load_cycle_detected_no_further_fetch (fun _ => ([] : List Nat)) (fun _ => some "A")
    "A" "A" (by decide) rfl rfl (by decide) rfl

/-- C4: every invocation of the resolver during a load cycle receives the
original user query, never the symbol that just failed (main.py line 98
always passes `initial_input`). -/
theorem load_resolver_called_with_original_query {α : Type} (fetch : String → List α)
    (resolve : String → Option String) (q : String) :
    ∀ s ∈ (load fetch resolve q).resolverQueries, s = q := by
  have h := load_data_resolver_arg fetch resolve q 0 3 (some q)
  simpa [load] using h

/-- C4 witness: a run whose resolver is invoked (direct fetch empty), checked
at its recorded resolver query. -/
theorem load_resolver_called_with_original_query_witness :
    "A" ∈ (load (fun _ => ([] : List Nat)) (fun _ => some "B") "A").resolverQueries
      ∧ ("A" : String) = "A" := by
  have hm : "A" ∈ (load (fun _ => ([] : List Nat)) (fun _ => some "B") "A").resolverQueries := by
    rw [load, load_data]
    simp
    rw [load_data]
    decide
  exact ⟨hm,
    load_resolver_called_with_original_query (fun _ => ([] : List Nat))
      (fun _ => some "B") "A" "A" hm⟩

/-- C1 counterexample: with every fetch empty and a resolver that returns the
distinct, not-yet-tried symbol "B" for the query "A", `load` performs exactly
2 fetch attempts — not `max_attempts = 3` — and its terminal failure is the
"previously resolved symbol also failed" path (main.py lines 111-114), not
either attempts-exhausted path (lines 78-80 and 115-117). -/
theorem load_attempts_exhausted_counterexample :
    (load (fun _ => ([] : List Nat)) (fun _ => some "B") "A").fetched.length = 2
    ∧ (load (fun _ => ([] : List Nat)) (fun _ => some "B") "A").fetched.length ≠ 3
    ∧ (load (fun _ => ([] : List Nat)) (fun _ => some "B") "A").outcome ≠ .attemptsExhausted
    ∧ (load (fun _ => ([] : List Nat)) (fun _ => some "B") "A").outcome ≠ .maxAttemptsReached
    ∧ (load (fun _ => ([] : List Nat)) (fun _ => some "B") "A").outcome
        = .resolvedSymbolFailed := by
  have h : load (fun _ => ([] : List Nat)) (fun _ => some "B") "A" =
      ⟨["A", "B"], ["A"], [0, 1], .resolvedSymbolFailed⟩ := by
    rw [load, load_data]
    simp
    rw [load_data]
    decide
  rw [h]
  decide

/-- C1 (amended): for a query for which no price fetch returns a non-empty
series and the resolver returns a distinct, not-yet-tried symbol, `load`
returns the resolved-symbol-failed terminal failure after exactly 2 fetch
attempts (the second iteration takes the `else` branch at main.py lines
111-114 because the resolved symbol differs from the initial input), and it
never performs more fetch attempts than `max_attempts`. -/
theorem load_resolved_symbol_failure_after_two_fetches {α : Type}
    (fetch : String → List α) (resolve : String → Option String) (q r : String)
    (hq : q ≠ "") (hfq : fetch q = []) (hr : resolve q = some r) (hrne : r ≠ "")
    (hdiff : pyUpper r ≠ pyUpper q) (hfr : fetch r = []) :
    load fetch resolve q = ⟨[q, r], [q], [0, 1], .resolvedSymbolFailed⟩
    ∧ (load fetch resolve q).fetched.length = 2
    ∧ (load fetch resolve q).fetched.length ≤ 3 := by
  have hmain : load fetch resolve q = ⟨[q, r], [q], [0, 1], .resolvedSymbolFailed⟩ := by
    rw [load, load_data]
    simp [hq, hfq, hr, hrne, hdiff]
    rw [load_data]
    simp [hrne, hfr, hdiff]
  refine ⟨hmain, ?_, ?_⟩ <;> rw [hmain] <;> simp

/-- C1 (amended) witness: all fetches empty, resolver maps "A" to "B". -/
theorem load_resolved_symbol_failure_after_two_fetches_witness :
    load (fun _ => ([] : List Nat)) (fun _ => some "B") "A" =
      ⟨["A", "B"], ["A"], [0, 1], .resolvedSymbolFailed⟩
    ∧ (load (fun _ => ([] : List Nat)) (fun _ => some "B") "A").fetched.length = 2
    ∧ (load (fun _ => ([] : List Nat)) (fun _ => some "B") "A").fetched.length ≤ 3 :=
  load_resolved_symbol_failure_after_two_fetches (fun _ => ([] : List Nat))
    (fun _ => some "B") "A" "B" (by decide) rfl rfl (by decide) (by decide) rfl

/-- C6: `load` terminates within the attempt bound for every input: the
attempt numbers of the iterations entered form the consecutive list
`range' 0 k` (each iteration that does not return strictly increases the
attempt number by one), there are at most `max_attempts = 3` iterations, and
each iteration performs exactly one fetch. -/
theorem load_iteration_count_bounded {α : Type} (fetch : String → List α)
    (resolve : String → Option String) (q : String) :
    ∃ k, (load fetch resolve q).attempts = List.range' 0 k ∧ k ≤ 3
      ∧ (load fetch resolve q).fetched.length = k := by
  have h := load_data_trace_shape fetch resolve q 0 3 (some q)
  simpa [load] using h

/-- C7: across a load cycle the attempt number is monotonically
non-decreasing and never exceeds `max_attempts = 3`, and the list of tried
symbols only grows (every earlier prefix of the fetched symbols is a sublist
of every later one). -/
theorem load_attempt_monotone_tried_grows {α : Type} (fetch : String → List α)
    (resolve : String → Option String) (q : String) :
    List.Chain' (· ≤ ·) (load fetch resolve q).attempts
    ∧ (∀ x ∈ (load fetch resolve q).attempts, x ≤ 3)
    ∧ ∀ i : Nat, List.Sublist ((load fetch resolve q).fetched.take i)
        ((load fetch resolve q).fetched.take (i + 1)) := by
  obtain ⟨k, hk1, hk2, hk3⟩ := load_data_trace_shape fetch resolve q 0 3 (some q)
  rw [load]
  refine ⟨?_, ?_, fun i => take_sublist_succ _ i⟩
  · rw [hk1]
    exact ((List.pairwise_lt_range' 0 k).imp fun h => le_of_lt h).chain'
  · intro x hx
    rw [hk1] at hx
    have h := List.mem_range'_1.mp hx
    omega

/-- C7 witness: a run with two iterations, checked at a concrete attempt
number and a concrete prefix pair. -/
theorem load_attempt_monotone_tried_grows_witness :
    List.Chain' (· ≤ ·) (load (fun _ => ([] : List Nat)) (fun _ => some "B") "A").attempts
    ∧ (0 ∈ (load (fun _ => ([] : List Nat)) (fun _ => some "B") "A").attempts ∧ 0 ≤ 3)
    ∧ List.Sublist
        ((load (fun _ => ([] : List Nat)) (fun _ => some "B") "A").fetched.take 1)
        ((load (fun _ => ([] : List Nat)) (fun _ => some "B") "A").fetched.take 2) := by
  have h := load_attempt_monotone_tried_grows (fun _ => ([] : List Nat))
    (fun _ => some "B") "A"
  have hm : 0 ∈ (load (fun _ => ([] : List Nat)) (fun _ => some "B") "A").attempts := by
    rw [load, load_data]
    simp
    split <;> simp
  exact ⟨h.1, ⟨hm, h.2.1 0 hm⟩, h.2.2 1⟩

/-- C10: symbol comparisons in a load cycle are case-insensitive and the
user query is upper-cased on entry: if the resolver returns a symbol that
differs from the just-failed symbol only in letter case, `load` treats it as
already tried and stops with the cycle failure instead of fetching it
(main.py lines 96-106 compare via `.upper()`), and the main block behaves
identically on the raw input and on its upper-cased form (line 19 upper-cases
the text input before any processing). -/
theorem load_case_insensitive_symbol_comparison {α : Type} (fetch : String → List α)
    (resolve : String → Option String) (q r : String)
    (hq : q ≠ "") (hfq : fetch q = []) (hr : resolve q = some r) (hrne : r ≠ "")
    (hdiffcase : r ≠ q) (hcase : pyUpper r = pyUpper q) :
    (load fetch resolve q).outcome = .resolvedAlreadyTried r
    ∧ (load fetch resolve q).fetched = [q]
    ∧ ∀ raw : String, main_app fetch resolve raw = main_app fetch resolve (pyUpper raw) := by
  have htr : load fetch resolve q = ⟨[q], [q], [0], .resolvedAlreadyTried r⟩ := by
    rw [load, load_data]
    simp [hq, hfq, hr, hrne, hcase]
  refine ⟨by rw [htr], by rw [htr], fun raw => ?_⟩
  unfold main_app
  rw [pyUpper_idem]

/-- C10 witness: the resolver answers "a" for the failed query "A". -/
theorem load_case_insensitive_symbol_comparison_witness :
    (load (fun _ => ([] : List Nat)) (fun _ => some "a") "A").outcome
        = .resolvedAlreadyTried "a"
    ∧ (load (fun _ => ([] : List Nat)) (fun _ => some "a") "A").fetched = ["A"]
    ∧ main_app (fun _ => ([] : List Nat)) (fun _ => some "a") "b"
        = main_app (fun _ => ([] : List Nat)) (fun _ => some "a") (pyUpper "b") := by
  have h := load_case_insensitive_symbol_comparison (fun _ => ([] : List Nat))
    (fun _ => some "a") "A" "a" (by decide) rfl rfl (by decide) (by decide) (by decide)
  exact ⟨h.1, h.2.1, h.2.2 "b"⟩

theorem jGetStr_ok_contains (v : JVal) (k : String) (x : JVal)
    (h : jGetStr v k = Except.ok x) : jContains v k = Except.ok true := by
  cases v with
  | obj kvs =>
    cases hl : kvs.lookup k with
    | none => simp [jGetStr, hl] at h
    | some y => simp [jContains, hl]
  | null => simp [jGetStr] at h
  | bool b => simp [jGetStr] at h
  | num n => simp [jGetStr] at h
  | str s => simp [jGetStr] at h
  | arr xs => simp [jGetStr] at h

/-- C5: `getTicker` never propagates an exception: on a timeout, on a
network/request error, on an HTTP error status, on an undecodable body, on a
malformed or unexpected response shape (body that is not a dict, missing
`quotes` key, first match missing or broken `symbol` field, non-indexable
`quotes` value, falsy `symbol`), and on an empty (falsy) match list, it
returns the structured failure value `none` to the caller. -/
theorem getTicker_failure_returns_none (resp : SearchResponse)
    (h : resp = SearchResponse.timeout
      ∨ resp = SearchResponse.connectionError
      ∨ (∃ st b, resp = SearchResponse.ok st b ∧ 400 ≤ st ∧ st < 600)
      ∨ (∃ st, resp = SearchResponse.ok st none)
      ∨ (∃ st d e, resp = SearchResponse.ok st (some d)
          ∧ jContains d "quotes" = Except.error e)
      ∨ (∃ st d, resp = SearchResponse.ok st (some d)
          ∧ jContains d "quotes" = Except.ok false)
      ∨ (∃ st d q, resp = SearchResponse.ok st (some d)
          ∧ jGetStr d "quotes" = Except.ok q ∧ jTruthy q = false)
      ∨ (∃ st d q e, resp = SearchResponse.ok st (some d)
          ∧ jGetStr d "quotes" = Except.ok q ∧ jTruthy q = true
          ∧ jGetIdx q 0 = Except.error e)
      ∨ (∃ st d q q0 e, resp = SearchResponse.ok st (some d)
          ∧ jGetStr d "quotes" = Except.ok q ∧ jTruthy q = true
          ∧ jGetIdx q 0 = Except.ok q0 ∧ jGetStr q0 "symbol" = Except.error e)
      ∨ (∃ st d q q0 sym, resp = SearchResponse.ok st (some d)
          ∧ jGetStr d "quotes" = Except.ok q ∧ jTruthy q = true
          ∧ jGetIdx q 0 = Except.ok q0 ∧ jGetStr q0 "symbol" = Except.ok sym
          ∧ jTruthy sym = false)) :
    getTicker resp = none := by
  rcases h with h | h | ⟨st, b, h, hst⟩ | ⟨st, h⟩
    | ⟨st, d, e, h, hc⟩ | ⟨st, d, h, hc⟩
    | ⟨st, d, q, h, hq, ht⟩ | ⟨st, d, q, e, h, hq, ht, hi⟩
    | ⟨st, d, q, q0, e, h, hq, ht, hi, hs⟩
    | ⟨st, d, q, q0, sym, h, hq, ht, hi, hs, hts⟩
  · rw [h]; rfl
  · rw [h]; rfl
  · subst h; simp [getTicker, getTickerTry, hst]
  · subst h
    by_cases hst : 400 ≤ st ∧ st < 600 <;> simp [getTicker, getTickerTry, hst]
  · subst h
    by_cases hst : 400 ≤ st ∧ st < 600 <;> simp [getTicker, getTickerTry, hst, hc]
  · subst h
    by_cases hst : 400 ≤ st ∧ st < 600 <;> simp [getTicker, getTickerTry, hst, hc]
  · subst h
    have hc := jGetStr_ok_contains d "quotes" q hq
    by_cases hst : 400 ≤ st ∧ st < 600 <;> simp [getTicker, getTickerTry, hst, hc, hq, ht]
  · subst h
    have hc := jGetStr_ok_contains d "quotes" q hq
    by_cases hst : 400 ≤ st ∧ st < 600 <;> simp [getTicker, getTickerTry, hst, hc, hq, ht, hi]
  · subst h
    have hc := jGetStr_ok_contains d "quotes" q hq
    by_cases hst : 400 ≤ st ∧ st < 600 <;> simp [getTicker, getTickerTry, hst, hc, hq, ht, hi, hs]
  · subst h
    have hc := jGetStr_ok_contains d "quotes" q hq
    by_cases hst : 400 ≤ st ∧ st < 600 <;>
      simp [getTicker, getTickerTry, hst, hc, hq, ht, hi, hs, hts]

/-- C5 witness: a timeout while contacting the search endpoint. -/
theorem getTicker_failure_returns_none_witness :
    getTicker SearchResponse.timeout = none :=
  getTicker_failure_returns_none SearchResponse.timeout (Or.inl rfl)

/-- C8: when a load cycle succeeds with a series of exactly one data point,
the main block still displays the raw data, shows the too-few-points warning,
does not run the forecasting engine (which needs at least 2 points), and
reports the insufficient-data error — it is not treated as a Data Loader
failure (main.py lines 129-168). -/
theorem insufficient_data_reported_at_forecast_stage {α : Type}
    (fetch : String → List α) (resolve : String → Option String) (raw : String) (p : α)
    (hru : pyUpper raw ≠ "")
    (hone : returnedValue (load fetch resolve (pyUpper raw)).outcome = [p]) :
    main_app fetch resolve raw = .shown true true false true
    ∧ main_app fetch resolve raw ≠ .loadFailed := by
  have hmain : main_app fetch resolve raw = .shown true true false true := by
    unfold main_app
    simp [hru, hone]
  exact ⟨hmain, by rw [hmain]; simp⟩

/-- C8 witness: a one-point series loaded directly for the input "A". -/
theorem insufficient_data_reported_at_forecast_stage_witness :
    main_app (fun _ => ([0] : List Nat)) (fun _ => none) "A" = .shown true true false true
    ∧ main_app (fun _ => ([0] : List Nat)) (fun _ => none) "A" ≠ .loadFailed := by
  refine insufficient_data_reported_at_forecast_stage (fun _ => ([0] : List Nat))
    (fun _ => none) "A" 0 (by decide) ?_
  rw [load, load_data]
  decide

end StockML
